import Mathlib

/-!
Verification of the build-time platform capability resolver in
`deps/leveldb/leveldb-1.22/port/port_config.h` (bcoin-org/bdb).

The header resolves five compile-time facts:
`HAVE_FDATASYNC`, `HAVE_FULLFSYNC`, `HAVE_CRC32C`, `HAVE_SNAPPY` and
`LEVELDB_IS_BIG_ENDIAN`.  Each fact is guarded by an
`#if !defined(...)` block, so an externally supplied definition (an
override) suppresses the probe entirely.  We embed the preprocessor
logic as total Lean functions over an explicit probe environment:
header availability (`__has_include` for the two guarded includes, and
success or failure of the unconditional includes in the endianness
dispatch), platform identity macros, and the definedness and values of
the byte-order symbols each dispatch arm consults.
-/

namespace PortConfig

/-- The probe environment seen by the preprocessor: which system headers
are includable, which platform identity macros are defined, and which
symbols the various headers define (with their numeric values where the
source compares them). `fdatasync_declared` records whether the platform
declares `fdatasync` as an ordinary function; the source never consults
it (its probe is `defined(fdatasync)`, a preprocessor-symbol test). -/
structure Env where
  has_unistd : Bool
  fdatasync_defined : Bool
  fdatasync_declared : Bool
  has_fcntl : Bool
  f_fullfsync_defined : Bool
  os_macosx : Bool
  os_ios : Bool
  os_solaris : Bool
  os_freebsd : Bool
  os_openbsd : Bool
  os_netbsd : Bool
  os_dragonflybsd : Bool
  os_hpux : Bool
  os_android : Bool
  has_machine_endian : Bool
  darwin_big_endian_defined : Bool
  darwin_byte_order_defined : Bool
  darwin_byte_order : Nat
  darwin_big_endian : Nat
  has_sys_isa_defs : Bool
  solaris_big_endian_defined : Bool
  has_sys_types : Bool
  has_sys_endian : Bool
  bsd_byte_order_defined : Bool
  bsd_big_endian_defined : Bool
  bsd_byte_order : Nat
  bsd_big_endian : Nat
  has_endian : Bool
  android_byte_order_defined : Bool
  android_big_endian_defined : Bool
  android_byte_order : Nat
  android_big_endian : Nat
  generic_byte_order_defined : Bool
  generic_big_endian_defined : Bool
  generic_byte_order : Nat
  generic_big_endian : Nat
deriving Repr, DecidableEq

/-- Externally supplied overrides: a fact whose name is already defined
before the header runs skips its probe block. The first four facts are
numeric preprocessor values; the byte-order fact is a boolean. -/
structure Overrides where
  fdatasync : Option Nat
  fullfsync : Option Nat
  crc32c : Option Nat
  snappy : Option Nat
  bigEndian : Option Bool
deriving Repr, DecidableEq

/-- Resolution of `HAVE_FDATASYNC` (port_config.h lines 9-20): if already
defined, the block is skipped; otherwise, when `<unistd.h>` is includable
it is included and `defined(fdatasync)` decides 1 or 0; when the header
is not includable the fact is 0. -/
def HAVE_FDATASYNC (ov : Option Nat) (e : Env) : Nat :=
  match ov with
  | some v => v
  | none =>
    if e.has_unistd then
      if e.fdatasync_defined then 1 else 0
    else 0

/-- Resolution of `HAVE_FULLFSYNC` (port_config.h lines 22-34): if already
defined, the block is skipped; otherwise, when `<fcntl.h>` is includable
it is included and `defined(F_FULLFSYNC)` decides 1 or 0; when the header
is not includable the fact is 0. -/
def HAVE_FULLFSYNC (ov : Option Nat) (e : Env) : Nat :=
  match ov with
  | some v => v
  | none =>
    if e.has_fcntl then
      if e.f_fullfsync_defined then 1 else 0
    else 0

/-- Resolution of `HAVE_CRC32C` (port_config.h lines 36-39): the override
if present, otherwise 0 unconditionally (no probe exists). -/
def HAVE_CRC32C (ov : Option Nat) (_e : Env) : Nat :=
  match ov with
  | some v => v
  | none => 0

/-- Resolution of `HAVE_SNAPPY` (port_config.h lines 41-44): the override
if present, otherwise 1 unconditionally (no probe exists). -/
def HAVE_SNAPPY (ov : Option Nat) (_e : Env) : Nat :=
  match ov with
  | some v => v
  | none => 1

/-- Outcome of the `LEVELDB_IS_BIG_ENDIAN` block. `resolved b` means the
fact ends up a usable boolean constant `b`. `headerMissing` means the
matched arm's unconditional `#include` failed, aborting compilation of
the header itself. `leftUndefined` means the block completed but defined
nothing (the Darwin arm when its symbols are not both defined).
`operandMissing` means the fact was defined as a comparison of symbols
that are themselves undefined, so its expansion is not a usable constant. -/
inductive EndianOutcome where
  | resolved (b : Bool)
  | headerMissing
  | leftUndefined
  | operandMissing
deriving Repr, DecidableEq

/-- Resolution of `LEVELDB_IS_BIG_ENDIAN` (port_config.h lines 46-79): if
already defined, the whole block is skipped; otherwise dispatch on the
platform identity macros in source order. The Apple arm includes
`<machine/endian.h>` and defines the fact as
`__DARWIN_BYTE_ORDER == __DARWIN_BIG_ENDIAN` only when both symbols are
defined, else defines nothing. The Solaris arm includes
`<sys/isa_defs.h>` and sets true or false from `#ifdef _BIG_ENDIAN`. The
BSD arm includes `<sys/types.h>` and `<sys/endian.h>` and defines the
fact as `_BYTE_ORDER == _BIG_ENDIAN`. The HP-UX arm hard-sets true. The
Android arm includes `<endian.h>` and compares `_BYTE_ORDER` with
`_BIG_ENDIAN`. The default arm includes `<endian.h>` and compares
`__BYTE_ORDER` with `__BIG_ENDIAN`. -/
def LEVELDB_IS_BIG_ENDIAN (ov : Option Bool) (e : Env) : EndianOutcome :=
  match ov with
  | some b => .resolved b
  | none =>
    if e.os_macosx || e.os_ios then
      if e.has_machine_endian then
        if e.darwin_big_endian_defined && e.darwin_byte_order_defined then
          .resolved (e.darwin_byte_order == e.darwin_big_endian)
        else .leftUndefined
      else .headerMissing
    else if e.os_solaris then
      if e.has_sys_isa_defs then
        .resolved e.solaris_big_endian_defined
      else .headerMissing
    else if e.os_freebsd || e.os_openbsd || e.os_netbsd || e.os_dragonflybsd then
      if e.has_sys_types && e.has_sys_endian then
        if e.bsd_byte_order_defined && e.bsd_big_endian_defined then
          .resolved (e.bsd_byte_order == e.bsd_big_endian)
        else .operandMissing
      else .headerMissing
    else if e.os_hpux then
      .resolved true
    else if e.os_android then
      if e.has_endian then
        if e.android_byte_order_defined && e.android_big_endian_defined then
          .resolved (e.android_byte_order == e.android_big_endian)
        else .operandMissing
      else .headerMissing
    else
      if e.has_endian then
        if e.generic_byte_order_defined && e.generic_big_endian_defined then
          .resolved (e.generic_byte_order == e.generic_big_endian)
        else .operandMissing
      else .headerMissing

/-- The five resolved facts. -/
structure Config where
  have_fdatasync : Nat
  have_fullfsync : Nat
  have_crc32c : Nat
  have_snappy : Nat
  is_big_endian : Bool
deriving Repr, DecidableEq

/-- Full resolution of the header: the four capability facts always get a
value; the configuration is produced when the byte-order fact resolves to
a usable constant, and is `none` otherwise. -/
def resolveConfig (ov : Overrides) (e : Env) : Option Config :=
  match LEVELDB_IS_BIG_ENDIAN ov.bigEndian e with
  | .resolved b =>
    some ⟨HAVE_FDATASYNC ov.fdatasync e, HAVE_FULLFSYNC ov.fullfsync e,
          HAVE_CRC32C ov.crc32c e, HAVE_SNAPPY ov.snappy e, b⟩
  | _ => none

/-- A second pass over the header sees every fact of a completed first
pass as already defined, i.e. as an override. -/
def overridesOfConfig (c : Config) : Overrides :=
  ⟨some c.have_fdatasync, some c.have_fullfsync, some c.have_crc32c,
   some c.have_snappy, some c.is_big_endian⟩

/-- Modelled from the spec: the downstream portability layer (the rest of
the storage engine, which is not part of the supplied source) consumes
`LEVELDB_IS_BIG_ENDIAN` as a fixed compile-time constant, so the build
proceeds past resolution only when that fact has a usable concrete
value; a missing header aborts compilation immediately and an undefined
fact or operand aborts it at the fact's first use. -/
def compilationProceeds (ov : Option Bool) (e : Env) : Bool :=
  match LEVELDB_IS_BIG_ENDIAN ov e with
  | .resolved _ => true
  | _ => false

/-- A platform is unrecognized when none of the identity macros consulted
by the endianness dispatch is defined. -/
def isUnrecognizedPlatform (e : Env) : Bool :=
  !(e.os_macosx || e.os_ios || e.os_solaris || e.os_freebsd || e.os_openbsd ||
    e.os_netbsd || e.os_dragonflybsd || e.os_hpux || e.os_android)

/-- A typical little-endian platform with no recognized identity macro
(e.g. a generic Linux build): `<unistd.h>` declares `fdatasync` as an
ordinary function without defining it as a preprocessor symbol,
`<fcntl.h>` defines `F_FULLFSYNC`, and the generic `<endian.h>` defines
both byte-order symbols with distinct values. -/
def envLinuxLE : Env where
  has_unistd := true
  fdatasync_defined := false
  fdatasync_declared := true
  has_fcntl := true
  f_fullfsync_defined := true
  os_macosx := false
  os_ios := false
  os_solaris := false
  os_freebsd := false
  os_openbsd := false
  os_netbsd := false
  os_dragonflybsd := false
  os_hpux := false
  os_android := false
  has_machine_endian := false
  darwin_big_endian_defined := false
  darwin_byte_order_defined := false
  darwin_byte_order := 0
  darwin_big_endian := 0
  has_sys_isa_defs := false
  solaris_big_endian_defined := false
  has_sys_types := false
  has_sys_endian := false
  bsd_byte_order_defined := false
  bsd_big_endian_defined := false
  bsd_byte_order := 0
  bsd_big_endian := 0
  has_endian := true
  android_byte_order_defined := false
  android_big_endian_defined := false
  android_byte_order := 0
  android_big_endian := 0
  generic_byte_order_defined := true
  generic_big_endian_defined := true
  generic_byte_order := 1234
  generic_big_endian := 4321

/-- An unrecognized platform on which the generic `<endian.h>` is not
includable. -/
def envNoEndianHeader : Env :=
  { envLinuxLE with has_endian := false }

/-- An Apple platform whose `<machine/endian.h>` defines neither
`__DARWIN_BIG_ENDIAN` nor `__DARWIN_BYTE_ORDER`. -/
def envDarwinInconclusive : Env :=
  { envLinuxLE with os_macosx := true, has_machine_endian := true }

/-- A big-endian FreeBSD platform: `<sys/endian.h>` defines `_BYTE_ORDER`
equal to `_BIG_ENDIAN`. -/
def envFreeBSDBE : Env :=
  { envLinuxLE with
    os_freebsd := true
    has_sys_types := true
    has_sys_endian := true
    bsd_byte_order_defined := true
    bsd_big_endian_defined := true
    bsd_byte_order := 4321
    bsd_big_endian := 4321 }

/-- No externally supplied definitions. -/
def noOverrides : Overrides :=
  ⟨none, none, none, none, none⟩

/-- Claim C1: for each of the five facts, when an override is supplied the
resolved value equals the override exactly, and the probe for that fact
is never evaluated: the result is the same in every probe environment. -/
theorem override_precedence (vf vff vc vs : Nat) (b : Bool) (e e' : Env) :
    HAVE_FDATASYNC (some vf) e = vf ∧
    HAVE_FDATASYNC (some vf) e = HAVE_FDATASYNC (some vf) e' ∧
    HAVE_FULLFSYNC (some vff) e = vff ∧
    HAVE_FULLFSYNC (some vff) e = HAVE_FULLFSYNC (some vff) e' ∧
    HAVE_CRC32C (some vc) e = vc ∧
    HAVE_CRC32C (some vc) e = HAVE_CRC32C (some vc) e' ∧
    HAVE_SNAPPY (some vs) e = vs ∧
    HAVE_SNAPPY (some vs) e = HAVE_SNAPPY (some vs) e' ∧
    LEVELDB_IS_BIG_ENDIAN (some b) e = EndianOutcome.resolved b ∧
    LEVELDB_IS_BIG_ENDIAN (some b) e = LEVELDB_IS_BIG_ENDIAN (some b) e' :=
  ⟨rfl, rfl, rfl, rfl, rfl, rfl, rfl, rfl, rfl, rfl⟩

/-- Claim C2, counterexample: on an unrecognized platform with no
byte-order override, resolution does not fail the build whenever the
generic `<endian.h>` is includable with its symbols defined; here it
resolves `LEVELDB_IS_BIG_ENDIAN` to `false` via the default arm. -/
theorem unrecognized_platform_resolves_cex :
    isUnrecognizedPlatform envLinuxLE = true ∧
    compilationProceeds none envLinuxLE = true ∧
    LEVELDB_IS_BIG_ENDIAN none envLinuxLE = EndianOutcome.resolved false := by
  refine ⟨rfl, rfl, ?_⟩
  decide

/-- Claim C2 (amended): on an unrecognized platform with no byte-order
override, resolution falls through to the default arm, which includes
the generic byte-order header unconditionally: when that header is not
includable the include fails and the build aborts; when it is includable
and its symbols are defined, the fact resolves to their comparison. -/
theorem unrecognized_platform_endian (e : Env)
    (h : isUnrecognizedPlatform e = true) :
    (e.has_endian = false →
      LEVELDB_IS_BIG_ENDIAN none e = EndianOutcome.headerMissing) ∧
    (e.has_endian = true → e.generic_byte_order_defined = true →
      e.generic_big_endian_defined = true →
      LEVELDB_IS_BIG_ENDIAN none e =
        EndianOutcome.resolved (e.generic_byte_order == e.generic_big_endian)) := by
  simp only [isUnrecognizedPlatform, Bool.not_eq_true', Bool.or_eq_false_iff] at h
  obtain ⟨⟨⟨⟨⟨⟨⟨⟨h1, h2⟩, h3⟩, h4⟩, h5⟩, h6⟩, h7⟩, h8⟩, h9⟩ := h
  constructor
  · intro hE
    simp [LEVELDB_IS_BIG_ENDIAN, h1, h2, h3, h4, h5, h6, h7, h8, h9, hE]
  · intro hE hg1 hg2
    simp [LEVELDB_IS_BIG_ENDIAN, h1, h2, h3, h4, h5, h6, h7, h8, h9, hE, hg1, hg2]

/-- Witness for the amended C2 at a concrete unrecognized platform whose
generic byte-order header is missing. -/
theorem unrecognized_platform_endian_witness :
    isUnrecognizedPlatform envNoEndianHeader = true ∧
    LEVELDB_IS_BIG_ENDIAN none envNoEndianHeader = EndianOutcome.headerMissing :=
  ⟨rfl, (unrecognized_platform_endian envNoEndianHeader rfl).1 rfl⟩

/-- Claim C3: for every combination of overrides and probe environment
under which resolution completes (the build is not aborted), exactly one
configuration is produced, assigning each of the five facts one concrete
value. -/
theorem resolution_total (ov : Overrides) (e : Env)
    (h : compilationProceeds ov.bigEndian e = true) :
    ∃! c : Config, resolveConfig ov e = some c := by
  unfold compilationProceeds at h
  unfold resolveConfig
  cases hE : LEVELDB_IS_BIG_ENDIAN ov.bigEndian e
  case resolved b =>
    exact ⟨⟨HAVE_FDATASYNC ov.fdatasync e, HAVE_FULLFSYNC ov.fullfsync e,
            HAVE_CRC32C ov.crc32c e, HAVE_SNAPPY ov.snappy e, b⟩, rfl,
           fun c hc => (Option.some_inj.mp hc).symm⟩
  all_goals rw [hE] at h
  all_goals exact absurd h (by decide)

/-- Witness for C3 at a concrete environment with no overrides. -/
theorem resolution_total_witness :
    compilationProceeds noOverrides.bigEndian envLinuxLE = true ∧
    ∃! c : Config, resolveConfig noOverrides envLinuxLE = some c :=
  ⟨rfl, resolution_total noOverrides envLinuxLE rfl⟩

/-- Claim C4: on an Apple-family platform whose Darwin byte-order symbols
are not both defined, with no byte-order override, the fact is never
resolved to a usable value and compilation cannot proceed (the arm either
aborts on a missing header or leaves the fact undefined, which aborts at
its first downstream use). -/
theorem darwin_inconclusive_fails (e : Env)
    (hOS : (e.os_macosx || e.os_ios) = true)
    (hSym : (e.darwin_big_endian_defined && e.darwin_byte_order_defined) = false) :
    (∀ b, LEVELDB_IS_BIG_ENDIAN none e ≠ EndianOutcome.resolved b) ∧
    compilationProceeds none e = false := by
  have h : LEVELDB_IS_BIG_ENDIAN none e = EndianOutcome.leftUndefined ∨
      LEVELDB_IS_BIG_ENDIAN none e = EndianOutcome.headerMissing := by
    rcases Bool.eq_false_or_eq_true e.has_machine_endian with hm | hm <;>
      simp [LEVELDB_IS_BIG_ENDIAN, hOS, hSym, hm]
  constructor
  · intro b hb
    rcases h with h | h <;> rw [h] at hb <;> exact EndianOutcome.noConfusion hb
  · unfold compilationProceeds
    rcases h with h | h <;> rw [h]

/-- Witness for C4 at a concrete Apple environment whose Darwin symbols
are undefined. -/
theorem darwin_inconclusive_fails_witness :
    ((envDarwinInconclusive.os_macosx || envDarwinInconclusive.os_ios) = true ∧
     (envDarwinInconclusive.darwin_big_endian_defined &&
      envDarwinInconclusive.darwin_byte_order_defined) = false) ∧
    compilationProceeds none envDarwinInconclusive = false :=
  ⟨⟨rfl, rfl⟩, (darwin_inconclusive_fails envDarwinInconclusive rfl rfl).2⟩

/-- Claim C5: with no override, `HAVE_FDATASYNC` resolves to 1 exactly
when `<unistd.h>` is includable and the probe finds `fdatasync`, and to 0
otherwise (including when the header is not includable); `HAVE_FULLFSYNC`
likewise with `<fcntl.h>` and `F_FULLFSYNC`; both resolutions are total,
always yielding 0 or 1 and never failing the build. -/
theorem sync_probe_defaults (e : Env) :
    HAVE_FDATASYNC none e =
      (if e.has_unistd && e.fdatasync_defined then 1 else 0) ∧
    HAVE_FULLFSYNC none e =
      (if e.has_fcntl && e.f_fullfsync_defined then 1 else 0) ∧
    (HAVE_FDATASYNC none e = 0 ∨ HAVE_FDATASYNC none e = 1) ∧
    (HAVE_FULLFSYNC none e = 0 ∨ HAVE_FULLFSYNC none e = 1) := by
  cases h1 : e.has_unistd <;> cases h2 : e.fdatasync_defined <;>
    cases h3 : e.has_fcntl <;> cases h4 : e.f_fullfsync_defined <;>
    simp [HAVE_FDATASYNC, HAVE_FULLFSYNC, h1, h2, h3, h4]

/-- Claim C6: with no override, `HAVE_CRC32C` resolves to 0 on every
platform; no probe exists and resolution never fails. -/
theorem crc32c_default_zero (e : Env) : HAVE_CRC32C none e = 0 :=
  rfl

/-- Claim C7: with no override, `HAVE_SNAPPY` resolves to 1 on every
platform; no probe exists and resolution never fails. -/
theorem snappy_default_one (e : Env) : HAVE_SNAPPY none e = 1 :=
  rfl

/-- Claim C8: on any of the four BSD-family variants (with the earlier
Apple and Solaris arms not matched, the BSD headers includable and their
symbols defined), `LEVELDB_IS_BIG_ENDIAN` resolves to the comparison of
`_BYTE_ORDER` with `_BIG_ENDIAN`; in particular, equal symbols give
`true`. -/
theorem bsd_endian_comparison (e : Env)
    (hNotDarwin : (e.os_macosx || e.os_ios) = false)
    (hNotSolaris : e.os_solaris = false)
    (hBSD : (e.os_freebsd || e.os_openbsd || e.os_netbsd ||
             e.os_dragonflybsd) = true)
    (hHdr : (e.has_sys_types && e.has_sys_endian) = true)
    (hSym : (e.bsd_byte_order_defined && e.bsd_big_endian_defined) = true) :
    LEVELDB_IS_BIG_ENDIAN none e =
      EndianOutcome.resolved (e.bsd_byte_order == e.bsd_big_endian) ∧
    (e.bsd_byte_order = e.bsd_big_endian →
      LEVELDB_IS_BIG_ENDIAN none e = EndianOutcome.resolved true) := by
  have h : LEVELDB_IS_BIG_ENDIAN none e =
      EndianOutcome.resolved (e.bsd_byte_order == e.bsd_big_endian) := by
    simp [LEVELDB_IS_BIG_ENDIAN, hNotDarwin, hNotSolaris, hBSD, hHdr, hSym]
  refine ⟨h, fun hEq => ?_⟩
  rw [h, hEq]
  simp

/-- Witness for C8 at a concrete big-endian FreeBSD environment. -/
theorem bsd_endian_comparison_witness :
    LEVELDB_IS_BIG_ENDIAN none envFreeBSDBE = EndianOutcome.resolved true :=
  (bsd_endian_comparison envFreeBSDBE rfl rfl rfl rfl rfl).2 rfl

/-- Claim C9: resolution is idempotent and order-independent across
facts: a second pass over the header, which sees every fact of a
completed first pass as already defined, reproduces the first pass's
configuration in any probe environment; and each sync fact reads only
its own override and probe inputs, so changing the other fact's probe
inputs leaves its resolution unchanged. -/
theorem resolution_idempotent_independent (ov : Overrides) (e e' : Env)
    (c : Config) (h : resolveConfig ov e = some c) (x y : Bool) :
    resolveConfig (overridesOfConfig c) e' = some c ∧
    HAVE_FULLFSYNC ov.fullfsync
      { e with has_unistd := x, fdatasync_defined := y } =
      HAVE_FULLFSYNC ov.fullfsync e ∧
    HAVE_FDATASYNC ov.fdatasync
      { e with has_fcntl := x, f_fullfsync_defined := y } =
      HAVE_FDATASYNC ov.fdatasync e := by
  obtain ⟨o1, o2, o3, o4, o5⟩ := ov
  refine ⟨rfl, ?_, ?_⟩
  · cases o2 <;> rfl
  · cases o1 <;> rfl

/-- Witness for C9: the configuration resolved on a generic little-endian
platform is reproduced by a second pass, even against a different
(FreeBSD) probe environment. -/
theorem resolution_idempotent_independent_witness :
    resolveConfig noOverrides envLinuxLE = some ⟨0, 1, 0, 1, false⟩ ∧
    resolveConfig (overridesOfConfig ⟨0, 1, 0, 1, false⟩) envFreeBSDBE =
      some ⟨0, 1, 0, 1, false⟩ := by
  have h : resolveConfig noOverrides envLinuxLE = some ⟨0, 1, 0, 1, false⟩ := by
    decide
  exact ⟨h, (resolution_idempotent_independent noOverrides envLinuxLE
    envFreeBSDBE ⟨0, 1, 0, 1, false⟩ h true true).1⟩

/-- Claim C10: with no override and `<unistd.h>` includable,
`HAVE_FDATASYNC` is 1 exactly when `fdatasync` is defined as a
preprocessor symbol after the include; a platform that declares
`fdatasync` only as an ordinary function (no preprocessor definition)
still resolves to 0. -/
theorem fdatasync_probe_is_symbol_based (e : Env)
    (h : e.has_unistd = true) :
    (HAVE_FDATASYNC none e = 1 ↔ e.fdatasync_defined = true) ∧
    (e.fdatasync_declared = true → e.fdatasync_defined = false →
      HAVE_FDATASYNC none e = 0) := by
  cases hd : e.fdatasync_defined <;> simp [HAVE_FDATASYNC, h, hd]

/-- Witness for C10: a platform that declares `fdatasync` only as a
function resolves `HAVE_FDATASYNC` to 0. -/
theorem fdatasync_probe_is_symbol_based_witness :
    envLinuxLE.has_unistd = true ∧ envLinuxLE.fdatasync_declared = true ∧
    envLinuxLE.fdatasync_defined = false ∧
    HAVE_FDATASYNC none envLinuxLE = 0 :=
  ⟨rfl, rfl, rfl,
   (fdatasync_probe_is_symbol_based envLinuxLE rfl).2 rfl rfl⟩

end PortConfig
